import Mathlib

/-!
Verification of the swapchain lifecycle and frame synchronization logic of
the rtrt renderer.

The development shallowly embeds the relevant Rust source:
* `src/src/ctx/swapchain.rs` — surface format / present mode / extent /
  image count selection and the swapchain create-info construction;
* `src/src/ctx/device.rs` — physical device selection;
* `src/src/render.rs` — the `Renderer` render-tick protocol
  (fence wait, acquire, fence reset, submit, present, rebuild).

Machine integers (Vulkan `u32` values) are modelled as `Nat`; the only
arithmetic performed on them by the embedded code (`min_image_count + 1`,
component-wise clamping) stays far below `2^32` for every value a Vulkan
implementation can report, so no wrap-around modelling is needed.
Fallible operations (indexing that can panic, `clamp` with an inverted
range, Vulkan calls that return errors) are modelled with `Option` or
`Except`.
-/

/-- Width/height pair, mirroring `ash::vk::Extent2D` (`u32` fields). -/
structure Extent2D where
  width : Nat
  height : Nat
deriving DecidableEq, Repr

/-- Vulkan format enumeration value (raw enum code), kept open-ended. -/
structure Format where
  code : Nat
deriving DecidableEq, Repr

/-- VK_FORMAT_UNDEFINED. -/
def Format.UNDEFINED : Format := ⟨0⟩

/-- VK_FORMAT_B8G8R8A8_UNORM. -/
def Format.B8G8R8A8_UNORM : Format := ⟨44⟩

/-- Vulkan color space enumeration value (raw enum code). -/
structure ColorSpaceKHR where
  code : Nat
deriving DecidableEq, Repr

/-- VK_COLOR_SPACE_SRGB_NONLINEAR_KHR. -/
def ColorSpaceKHR.SRGB_NONLINEAR : ColorSpaceKHR := ⟨0⟩

/-- Vulkan present mode enumeration value (raw enum code). -/
structure PresentModeKHR where
  code : Nat
deriving DecidableEq, Repr

/-- VK_PRESENT_MODE_IMMEDIATE_KHR. -/
def PresentModeKHR.IMMEDIATE : PresentModeKHR := ⟨0⟩

/-- VK_PRESENT_MODE_MAILBOX_KHR. -/
def PresentModeKHR.MAILBOX : PresentModeKHR := ⟨1⟩

/-- VK_PRESENT_MODE_FIFO_KHR. -/
def PresentModeKHR.FIFO : PresentModeKHR := ⟨2⟩

/-- Mirrors `ash::vk::SurfaceFormatKHR`: a format / color-space pair. -/
structure SurfaceFormatKHR where
  format : Format
  color_space : ColorSpaceKHR
deriving DecidableEq, Repr

/-- The preferred surface format of `select_surface_format`:
BGRA8-unorm with sRGB-nonlinear color space. -/
def bgraUnormSrgb : SurfaceFormatKHR :=
  { format := Format.B8G8R8A8_UNORM, color_space := ColorSpaceKHR.SRGB_NONLINEAR }

/-- Embeds `select_surface_format` (src/src/ctx/swapchain.rs, lines 5-18).
The fallback `&available_formats[0]` panics on an empty list; that panic is
modelled by `none` (via `List.head?`). -/
def select_surface_format (available_formats : List SurfaceFormatKHR) :
    Option SurfaceFormatKHR :=
  if available_formats.length = 1 ∧
      (available_formats.head?.map SurfaceFormatKHR.format) = some Format.UNDEFINED then
    some { format := Format.B8G8R8A8_UNORM, color_space := ColorSpaceKHR.SRGB_NONLINEAR }
  else
    match available_formats.find? (fun x =>
        decide (x.format = Format.B8G8R8A8_UNORM ∧
          x.color_space = ColorSpaceKHR.SRGB_NONLINEAR)) with
    | some f => some f
    | none => available_formats.head?

/-- Embeds `select_surface_present_mode` (src/src/ctx/swapchain.rs, lines 20-30). -/
def select_surface_present_mode (available_present_modes : List PresentModeKHR) :
    PresentModeKHR :=
  if PresentModeKHR.MAILBOX ∈ available_present_modes then
    PresentModeKHR.MAILBOX
  else if PresentModeKHR.FIFO ∈ available_present_modes then
    PresentModeKHR.FIFO
  else
    PresentModeKHR.IMMEDIATE

/-- The fields of `ash::vk::SurfaceCapabilitiesKHR` read by the embedded code. -/
structure SurfaceCapabilitiesKHR where
  current_extent : Extent2D
  min_image_extent : Extent2D
  max_image_extent : Extent2D
  min_image_count : Nat
  max_image_count : Nat
deriving DecidableEq, Repr

/-- `std::u32::MAX`, the sentinel marking an undefined current extent. -/
def U32_MAX : Nat := 2 ^ 32 - 1

/-- Rust's `Ord::clamp` on `u32`: asserts `lo ≤ hi` (panic modelled as `none`),
then moves `x` into `[lo, hi]`. -/
def clampU32 (x lo hi : Nat) : Option Nat :=
  if lo ≤ hi then
    some (if x < lo then lo else if x > hi then hi else x)
  else
    none

/-- Embeds `select_extent` (src/src/ctx/swapchain.rs, lines 32-47). -/
def select_extent (capabilities : SurfaceCapabilitiesKHR)
    (preferred_extent : Extent2D) : Option Extent2D :=
  if capabilities.current_extent.width ≠ U32_MAX then
    some capabilities.current_extent
  else
    match clampU32 preferred_extent.width
            capabilities.min_image_extent.width capabilities.max_image_extent.width,
          clampU32 preferred_extent.height
            capabilities.min_image_extent.height capabilities.max_image_extent.height with
    | some w, some h => some { width := w, height := h }
    | _, _ => none

/-- Embeds the `image_count` block of `DeviceCtx::create_swapchain_ctx`
(src/src/ctx/swapchain.rs, lines 68-72). -/
def select_image_count (min_image_count max_image_count : Nat) : Nat :=
  let max := max_image_count
  let preferred := min_image_count + 1
  if max = 0 ∨ preferred ≤ max then preferred else max

/-- Mirrors `SwapchainSupportDetails` (src/src/ctx/surface.rs, lines 81-85). -/
structure SwapchainSupportDetails where
  capabilities : SurfaceCapabilitiesKHR
  formats : List SurfaceFormatKHR
  present_modes : List PresentModeKHR
deriving DecidableEq, Repr

/-- The `SwapchainCreateInfoKHR` fields set by `create_swapchain_ctx`
(src/src/ctx/swapchain.rs, lines 74-88), plus the builder-defaulted
`old_swapchain` field, which the code never sets (it stays a null handle,
modelled as `none`). -/
structure SwapchainCreateInfo where
  min_image_count : Nat
  image_format : Format
  image_color_space : ColorSpaceKHR
  image_extent : Extent2D
  image_array_layers : Nat
  image_sharing_concurrent : Bool
  queue_family_indices : List Nat
  composite_alpha_opaque : Bool
  present_mode : PresentModeKHR
  clipped : Bool
  old_swapchain : Option Nat
deriving DecidableEq, Repr

/-- Embeds the pure prefix of `DeviceCtx::create_swapchain_ctx`
(src/src/ctx/swapchain.rs, lines 60-88): the selection calls and the
create-info construction. `none` models a panic in format selection or an
extent-clamp assertion failure. -/
def create_swapchain_info (details : SwapchainSupportDetails)
    (dedup_family_indices : List Nat) (preferred_extent : Extent2D) :
    Option SwapchainCreateInfo := do
  let format ← select_surface_format details.formats
  let present_mode := select_surface_present_mode details.present_modes
  let extent ← select_extent details.capabilities preferred_extent
  let image_count := select_image_count
    details.capabilities.min_image_count details.capabilities.max_image_count
  some {
    min_image_count := image_count,
    image_format := format.format,
    image_color_space := format.color_space,
    image_extent := extent,
    image_array_layers := 1,
    image_sharing_concurrent := dedup_family_indices.length > 1,
    queue_family_indices := dedup_family_indices,
    composite_alpha_opaque := true,
    present_mode := present_mode,
    clipped := true,
    old_swapchain := none }

/-- Mirrors `SelectedPhysicalDevice` (src/src/ctx/device.rs, lines 137-144),
restricted to the fields the embedded logic uses. -/
structure SelectedPhysicalDevice where
  graphics_family_index : Nat
  present_family_index : Nat
  dedup_family_indices : List Nat
  swapchain_support_details : SwapchainSupportDetails
deriving DecidableEq, Repr

/-- The per-device query results consumed by `select_physical_device`
(src/src/ctx/device.rs). `find_queue_families` returns
`Result<Option<(u32, u32)>>`: the outer `none` models an `Err` (which aborts
the whole selection via the `?` in line 35-36), the inner `Option` is the
found (graphics, present) family pair. The other two fields model
`Result` values whose `Err` case is turned into a skip by `.ok()?`. -/
structure CandidateDevice where
  find_queue_families : Option (Option (Nat × Nat))
  required_extensions_ok : Option Bool
  support_details : Option SwapchainSupportDetails
deriving DecidableEq, Repr

/-- Embeds the body of the `filter_map` closure in `select_physical_device`
(src/src/ctx/device.rs, lines 38-56). -/
def filter_device (d : CandidateDevice) (queues : Option (Nat × Nat)) :
    Option SelectedPhysicalDevice := do
  let (graphics_family_index, present_family_index) ← queues
  let supports_required_extensions ← d.required_extensions_ok
  if ¬supports_required_extensions then none else
  let swapchain_support_details ← d.support_details
  let swapchain_is_adequate :=
    ¬swapchain_support_details.formats.isEmpty ∧
      ¬swapchain_support_details.present_modes.isEmpty
  if ¬swapchain_is_adequate then none else
  let dedup_family_indices :=
    if graphics_family_index = present_family_index then
      [graphics_family_index]
    else
      [graphics_family_index, present_family_index]
  some {
    graphics_family_index := graphics_family_index,
    present_family_index := present_family_index,
    dedup_family_indices := dedup_family_indices,
    swapchain_support_details := swapchain_support_details }

/-- Embeds `SurfaceCtx::select_physical_device` (src/src/ctx/device.rs,
lines 30-58): first collect every device's queue-family query (an `Err`
anywhere aborts), then take the first device that passes all filters.
`none` models both the propagated `Err` and the final
"No suitable physical device" error. -/
def select_physical_device (devices : List CandidateDevice) :
    Option SelectedPhysicalDevice := do
  let devices_and_queues ← devices.mapM
    (fun d => d.find_queue_families.map (fun q => (d, q)))
  devices_and_queues.findSome? (fun dq => filter_device dq.1 dq.2)

/-- Outcome of `acquire_next_image` as observed by `Renderer::render`
(src/src/render.rs, lines 186-198): success carries the image index and the
suboptimal flag (which the code ignores); `outOfDate` is
`ERROR_OUT_OF_DATE_KHR`; `otherError` is any other `Err`, which `render`
propagates. -/
inductive AcquireOutcome
  | success (imageIndex : Nat) (suboptimal : Bool)
  | outOfDate
  | otherError
deriving DecidableEq, Repr

/-- Outcome of `queue_present` as observed by `Renderer::render`
(src/src/render.rs, lines 226-231). -/
inductive PresentOutcome
  | success (suboptimal : Bool)
  | outOfDate
  | otherError
deriving DecidableEq, Repr

/-- Environment of one `Renderer::render` tick: the window size that
`recreate_sized_renderer` would observe, whether `SizedRenderer::new` would
succeed, and the presentation engine's responses. -/
structure TickInput where
  windowSize : Extent2D
  rebuildOk : Bool
  acquire : AcquireOutcome
  present : PresentOutcome
deriving DecidableEq, Repr

/-- Observable actions of a tick, in program order:
`fenceWait slot` = `wait_for_fences` on `in_flight_fences[slot]`;
`fenceReset slot` = `reset_fences` on it; `submit c f` = `queue_submit` of
command buffer `buffers[c]` signalling fence `f`; `presentCall i` =
`queue_present` of image index `i`; `idleWait` = the `wait_for_idle` at the
top of `recreate_sized_renderer`; `createSized e` = successful
`SizedRenderer::new` at extent `e`; `createFailed e` = a failing one;
`destroySized e` = dropping the previous `SizedRenderer`. -/
inductive Event
  | fenceWait (slot : Nat)
  | fenceReset (slot : Nat)
  | submit (cmdBufIndex : Nat) (fenceSlot : Nat)
  | presentCall (imageIndex : Nat)
  | idleWait
  | createSized (extent : Extent2D)
  | createFailed (extent : Extent2D)
  | destroySized (extent : Extent2D)
deriving DecidableEq, Repr

/-- The mutable fields of `Renderer` (src/src/render.rs, lines 68-83) that
the tick protocol touches. The `SizedRenderer` is abstracted to the extent
it was built at (its command-buffer count plays no role in the claims).
`fenceSignaled[i] = true` means fence `i` is signaled or has a pending
submission that will signal it, so a `wait_for_fences` on it returns. -/
structure RendererState where
  sizedExtent : Option Extent2D
  resizeNeeded : Bool
  maxFramesInFlight : Nat
  currentFrameInFlight : Nat
  fenceSignaled : List Bool
deriving DecidableEq, Repr

/-- Embeds `Renderer::recreate_sized_renderer` (src/src/render.rs, lines
139-159): wait for device idle; with a zero-size window drop the sized
renderer and create nothing; otherwise build a new `SizedRenderer` first and
only then (by assignment) drop the old one; clear `resize_needed`. A failing
`SizedRenderer::new` propagates as `Err` (`.error`, carrying the trace up to
the failure) and leaves the old renderer in place. -/
def recreate_sized_renderer (size : Extent2D) (creationOk : Bool)
    (s : RendererState) : Except (List Event) (RendererState × List Event) :=
  let destroyOld : List Event :=
    match s.sizedExtent with
    | some e => [Event.destroySized e]
    | none => []
  if size.width = 0 ∨ size.height = 0 then
    .ok ({ s with sizedExtent := none, resizeNeeded := false },
      [Event.idleWait] ++ destroyOld)
  else if creationOk then
    .ok ({ s with sizedExtent := some size, resizeNeeded := false },
      [Event.idleWait, Event.createSized size] ++ destroyOld)
  else
    .error [Event.idleWait, Event.createFailed size]

/-- Embeds `Renderer::render` (src/src/render.rs, lines 161-238).
With no sized renderer the tick returns at once (lines 165-168). Otherwise:
wait on this slot's fence; acquire (out-of-date ⇒ recreate and return, other
error ⇒ propagate); reset the fence; submit
`buffers[current_frame_in_flight]` signalling this slot's fence; present the
acquired image index; on suboptimal-or-resize-needed or present-out-of-date,
recreate before returning. The frame-in-flight advance (line 235) is
commented out in the source, so `currentFrameInFlight` is never changed. -/
def render (inp : TickInput) (s : RendererState) :
    Except (List Event) (RendererState × List Event) :=
  match s.sizedExtent with
  | none => .ok (s, [])
  | some _ =>
    let slot := s.currentFrameInFlight
    let evs1 := [Event.fenceWait slot]
    match inp.acquire with
    | .outOfDate =>
      match recreate_sized_renderer inp.windowSize inp.rebuildOk s with
      | .error revs => .error (evs1 ++ revs)
      | .ok (s2, revs) => .ok (s2, evs1 ++ revs)
    | .otherError => .error evs1
    | .success imageIndex _suboptimal =>
      let s2 : RendererState :=
        { s with fenceSignaled := s.fenceSignaled.set slot false }
      let s3 : RendererState :=
        { s2 with fenceSignaled := s2.fenceSignaled.set slot true }
      let evs4 := evs1 ++ [Event.fenceReset slot, Event.submit slot slot,
        Event.presentCall imageIndex]
      match inp.present with
      | .otherError => .error evs4
      | .outOfDate =>
        match recreate_sized_renderer inp.windowSize inp.rebuildOk s3 with
        | .error revs => .error (evs4 ++ revs)
        | .ok (s4, revs) => .ok (s4, evs4 ++ revs)
      | .success suboptimal =>
        if suboptimal ∨ s3.resizeNeeded then
          match recreate_sized_renderer inp.windowSize inp.rebuildOk s3 with
          | .error revs => .error (evs4 ++ revs)
          | .ok (s4, revs) => .ok (s4, evs4 ++ revs)
        else
          .ok (s3, evs4)

/-- Embeds the state set up by `Renderer::new` (src/src/render.rs, lines
86-131): two frames in flight, slot 0 current, both fences created signaled,
`resize_needed = true`, then an initial `recreate_sized_renderer`. -/
def initial_renderer (windowSize : Extent2D) (creationOk : Bool) :
    Except (List Event) (RendererState × List Event) :=
  recreate_sized_renderer windowSize creationOk
    { sizedExtent := none, resizeNeeded := true, maxFramesInFlight := 2,
      currentFrameInFlight := 0, fenceSignaled := [true, true] }

/-- Runs a sequence of ticks, collecting each tick's event list.
An error in any tick aborts the run, as the caller of `render` would. -/
def run (s : RendererState) : List TickInput →
    Except Unit (RendererState × List (List Event))
  | [] => .ok (s, [])
  | inp :: rest =>
    match render inp s with
    | .error _ => .error ()
    | .ok (s2, evs) =>
      match run s2 rest with
      | .error e => .error e
      | .ok (sf, evss) => .ok (sf, evs :: evss)

/-- Number of `wait_for_fences` calls recorded in a trace. -/
def countFenceWaits : List Event → Nat
  | [] => 0
  | .fenceWait _ :: rest => countFenceWaits rest + 1
  | _ :: rest => countFenceWaits rest

/-- Number of `reset_fences` calls recorded in a trace. -/
def countFenceResets : List Event → Nat
  | [] => 0
  | .fenceReset _ :: rest => countFenceResets rest + 1
  | _ :: rest => countFenceResets rest

/-- Number of `queue_submit` calls recorded in a trace. -/
def countSubmits : List Event → Nat
  | [] => 0
  | .submit _ _ :: rest => countSubmits rest + 1
  | _ :: rest => countSubmits rest

/-- Number of `queue_present` calls recorded in a trace. -/
def countPresents : List Event → Nat
  | [] => 0
  | .presentCall _ :: rest => countPresents rest + 1
  | _ :: rest => countPresents rest

/-- Number of `recreate_sized_renderer` invocations recorded in a trace
(each one starts with exactly one `idleWait`). -/
def countRebuildAttempts : List Event → Nat
  | [] => 0
  | .idleWait :: rest => countRebuildAttempts rest + 1
  | _ :: rest => countRebuildAttempts rest

/-- The command-buffer indices passed to `queue_submit`, in order. -/
def submittedBufferIndices (evs : List Event) : List Nat :=
  evs.filterMap (fun e => match e with | .submit c _ => some c | _ => none)

/-- The image indices passed to `queue_present`, in order. -/
def presentedImageIndices (evs : List Event) : List Nat :=
  evs.filterMap (fun e => match e with | .presentCall i => some i | _ => none)

/-- The fence slots waited on, in order (one per tick that reaches the
fence wait; the slot identifies the `FrameSlot` the tick operates on). -/
def slotsWaited (evss : List (List Event)) : List Nat :=
  evss.flatMap (fun evs =>
    evs.filterMap (fun e => match e with | .fenceWait i => some i | _ => none))

/-- Surface capabilities with a fixed (non-sentinel) current extent. -/
def sampleCaps : SurfaceCapabilitiesKHR :=
  { current_extent := { width := 640, height := 480 },
    min_image_extent := { width := 1, height := 1 },
    max_image_extent := { width := 4096, height := 4096 },
    min_image_count := 2, max_image_count := 3 }

/-- Surface capabilities reporting the undefined-extent sentinel. -/
def sentinelCaps : SurfaceCapabilitiesKHR :=
  { current_extent := { width := U32_MAX, height := U32_MAX },
    min_image_extent := { width := 1, height := 1 },
    max_image_extent := { width := 4096, height := 4096 },
    min_image_count := 2, max_image_count := 3 }

/-- Support details of a device that passes the adequacy filter. -/
def sampleSupportDetails : SwapchainSupportDetails :=
  { capabilities := sampleCaps, formats := [bgraUnormSrgb],
    present_modes := [PresentModeKHR.FIFO] }

/-- A candidate device whose queries all succeed. -/
def sampleCandidate : CandidateDevice :=
  { find_queue_families := some (some (0, 0)),
    required_extensions_ok := some true,
    support_details := some sampleSupportDetails }

/-- The selection result for `sampleCandidate`. -/
def sampleSelected : SelectedPhysicalDevice :=
  { graphics_family_index := 0, present_family_index := 0,
    dedup_family_indices := [0],
    swapchain_support_details := sampleSupportDetails }

/-- A typical window extent. -/
def sampleExtent : Extent2D := { width := 640, height := 480 }

/-- A zero-width window extent, as reported by a minimized window. -/
def zeroExtent : Extent2D := { width := 0, height := 480 }

/-- A renderer state as produced by `Renderer::new` at `sampleExtent`. -/
def sampleState : RendererState :=
  { sizedExtent := some sampleExtent, resizeNeeded := false,
    maxFramesInFlight := 2, currentFrameInFlight := 0,
    fenceSignaled := [true, true] }

/-- The renderer state after a rebuild attempt saw a zero-size window. -/
def idleState : RendererState :=
  { sizedExtent := none, resizeNeeded := false,
    maxFramesInFlight := 2, currentFrameInFlight := 0,
    fenceSignaled := [true, true] }

/-- A fully successful tick environment: acquire image 0, present fine. -/
def tickOkInput : TickInput :=
  { windowSize := sampleExtent, rebuildOk := true,
    acquire := AcquireOutcome.success 0 false,
    present := PresentOutcome.success false }

/-- A tick environment whose acquire hands back image index 1. -/
def tickAcquire1Input : TickInput :=
  { tickOkInput with acquire := AcquireOutcome.success 1 false }

/-- A tick environment whose present reports suboptimal. -/
def tickSuboptInput : TickInput :=
  { tickOkInput with present := PresentOutcome.success true }

/-- A tick environment whose acquire reports out-of-date. -/
def tickOutOfDateInput : TickInput :=
  { tickOkInput with acquire := AcquireOutcome.outOfDate }

/-- Trace of a fully successful tick on slot 0. -/
def okTickEvents : List Event :=
  [Event.fenceWait 0, Event.fenceReset 0, Event.submit 0 0, Event.presentCall 0]

/-- Trace of a slot-0 tick that acquires image index 1. -/
def acquire1TickEvents : List Event :=
  [Event.fenceWait 0, Event.fenceReset 0, Event.submit 0 0, Event.presentCall 1]

/-- Trace of a slot-0 tick whose present reports suboptimal. -/
def suboptTickEvents : List Event :=
  [Event.fenceWait 0, Event.fenceReset 0, Event.submit 0 0, Event.presentCall 0,
   Event.idleWait, Event.createSized sampleExtent, Event.destroySized sampleExtent]

/-- Trace of a slot-0 tick whose acquire reports out-of-date. -/
def oodTickEvents : List Event :=
  [Event.fenceWait 0, Event.idleWait, Event.createSized sampleExtent,
   Event.destroySized sampleExtent]

/-- The create info built from `sampleSupportDetails` at `sampleExtent`. -/
def sampleCreateInfo : SwapchainCreateInfo :=
  { min_image_count := 3, image_format := Format.B8G8R8A8_UNORM,
    image_color_space := ColorSpaceKHR.SRGB_NONLINEAR,
    image_extent := sampleExtent, image_array_layers := 1,
    image_sharing_concurrent := false, queue_family_indices := [0],
    composite_alpha_opaque := true, present_mode := PresentModeKHR.FIFO,
    clipped := true, old_swapchain := none }

/-- On a non-empty format list, `select_surface_format` cannot hit the
panicking fallback: it always produces a result. -/
theorem select_surface_format_isSome_of_ne_nil (fs : List SurfaceFormatKHR)
    (h : fs ≠ []) : (select_surface_format fs).isSome := by
  match fs, h with
  | a :: as, _ =>
    unfold select_surface_format
    split
    · rfl
    · split
      · rfl
      · rfl

/-- C7: for every non-empty list of supported surface formats, the selection
returns BGRA8-unorm with sRGB-nonlinear if that pair is in the list;
otherwise, if the list is exactly one entry whose format is UNDEFINED, it
returns BGRA8-unorm with sRGB-nonlinear; otherwise it returns the first
entry of the list. -/
theorem select_surface_format_spec (fs : List SurfaceFormatKHR) (hne : fs ≠ []) :
    select_surface_format fs = some (
      if bgraUnormSrgb ∈ fs then bgraUnormSrgb
      else if fs.length = 1 ∧ (fs.head hne).format = Format.UNDEFINED then
        bgraUnormSrgb
      else fs.head hne) := by
  match fs, hne with
  | a :: as, hne =>
    unfold select_surface_format
    by_cases h1 : (a :: as).length = 1 ∧
        ((a :: as).head?.map SurfaceFormatKHR.format) = some Format.UNDEFINED
    · rw [if_pos h1]
      obtain ⟨hlen, hfmt⟩ := h1
      have has : as = [] := by
        cases as with
        | nil => rfl
        | cons b bs => simp at hlen
      subst has
      have hafmt : a.format = Format.UNDEFINED := by simpa using hfmt
      have hnotmem : ¬ bgraUnormSrgb ∈ [a] := by
        simp only [List.mem_singleton]
        intro heq
        rw [← heq] at hafmt
        simp [bgraUnormSrgb, Format.B8G8R8A8_UNORM, Format.UNDEFINED] at hafmt
      rw [if_neg hnotmem, if_pos ⟨rfl, by simpa using hafmt⟩]
      rfl
    · rw [if_neg h1]
      by_cases hmem : bgraUnormSrgb ∈ a :: as
      · rw [if_pos hmem]
        rcases hfind : (a :: as).find? (fun x =>
            decide (x.format = Format.B8G8R8A8_UNORM ∧
              x.color_space = ColorSpaceKHR.SRGB_NONLINEAR)) with _ | f
        · exfalso
          have hno := List.find?_eq_none.mp hfind bgraUnormSrgb hmem
          simp [bgraUnormSrgb] at hno
        · rw [hfind]
          have hp := List.find?_some hfind
          have hf : f = bgraUnormSrgb := by
            cases f with
            | mk ff fc =>
              simp only [decide_eq_true_eq] at hp
              simp only [bgraUnormSrgb]
              exact congrArg₂ SurfaceFormatKHR.mk hp.1 hp.2
          rw [hf]
      · rw [if_neg hmem]
        have hfind : (a :: as).find? (fun x =>
            decide (x.format = Format.B8G8R8A8_UNORM ∧
              x.color_space = ColorSpaceKHR.SRGB_NONLINEAR)) = none := by
          rw [List.find?_eq_none]
          intro x hx
          simp only [decide_eq_true_eq]
          rintro ⟨hxf, hxc⟩
          apply hmem
          have hxb : x = bgraUnormSrgb := by
            cases x with
            | mk xf xc =>
              simp only [bgraUnormSrgb]
              exact congrArg₂ SurfaceFormatKHR.mk hxf hxc
          rw [← hxb]
          exact hx
        rw [hfind]
        have h2 : ¬((a :: as).length = 1 ∧
            ((a :: as).head hne).format = Format.UNDEFINED) := by
          rintro ⟨hl, hh⟩
          exact h1 ⟨hl, by simpa using hh⟩
        rw [if_neg h2]
        rfl

/-- The legacy single-entry UNDEFINED format list. -/
def undefinedOnlyFormats : List SurfaceFormatKHR :=
  [{ format := Format.UNDEFINED, color_space := ColorSpaceKHR.SRGB_NONLINEAR }]

/-- Witness for `select_surface_format_spec`: the single-UNDEFINED-entry
list selects BGRA8-unorm with sRGB-nonlinear. -/
theorem select_surface_format_spec_witness :
    select_surface_format undefinedOnlyFormats = some bgraUnormSrgb := by
  have h := select_surface_format_spec undefinedOnlyFormats (by decide)
  rw [h]
  decide

/-- C8: the requested swapchain image count is `min_image_count + 1` when
`max_image_count` is zero (unbounded) or at least `min_image_count + 1`, and
`max_image_count` otherwise; in particular min 2 with max 2 yields 2. -/
theorem select_image_count_spec :
    (∀ minC maxC : Nat, (maxC = 0 ∨ minC + 1 ≤ maxC) →
      select_image_count minC maxC = minC + 1) ∧
    (∀ minC maxC : Nat, ¬(maxC = 0 ∨ minC + 1 ≤ maxC) →
      select_image_count minC maxC = maxC) ∧
    select_image_count 2 2 = 2 := by
  refine ⟨?_, ?_, by decide⟩
  · intro minC maxC h
    simp only [select_image_count, if_pos h]
  · intro minC maxC h
    simp only [select_image_count, if_neg h]

/-- Witness for `select_image_count_spec`: unbounded max gives min + 1, a
tight max caps the request. -/
theorem select_image_count_spec_witness :
    select_image_count 5 0 = 6 ∧ select_image_count 5 3 = 3 :=
  ⟨select_image_count_spec.1 5 0 (Or.inl rfl),
   select_image_count_spec.2.1 5 3 (by decide)⟩

/-- `clampU32` with a well-ordered range equals the min/max clamp. -/
theorem clampU32_eq_min_max (x lo hi : Nat) (h : lo ≤ hi) :
    clampU32 x lo hi = some (min (max x lo) hi) := by
  unfold clampU32
  rw [if_pos h]
  congr 1
  split_ifs <;> omega

/-- C9: with a fixed current extent the selection returns it, ignoring the
preferred extent; with the undefined-extent sentinel it clamps the preferred
extent component-wise to [min_image_extent, max_image_extent], so a
preferred extent already within those bounds is returned unchanged. -/
theorem select_extent_spec (caps : SurfaceCapabilitiesKHR) (e : Extent2D) :
    (caps.current_extent.width ≠ U32_MAX →
      select_extent caps e = some caps.current_extent) ∧
    (caps.current_extent.width = U32_MAX →
      caps.min_image_extent.width ≤ caps.max_image_extent.width →
      caps.min_image_extent.height ≤ caps.max_image_extent.height →
      select_extent caps e = some {
        width := min (max e.width caps.min_image_extent.width)
          caps.max_image_extent.width,
        height := min (max e.height caps.min_image_extent.height)
          caps.max_image_extent.height } ∧
      (caps.min_image_extent.width ≤ e.width →
       e.width ≤ caps.max_image_extent.width →
       caps.min_image_extent.height ≤ e.height →
       e.height ≤ caps.max_image_extent.height →
       select_extent caps e = some e)) := by
  constructor
  · intro hfix
    unfold select_extent
    rw [if_pos hfix]
  · intro hvar hw hh
    have hsel : select_extent caps e = some {
        width := min (max e.width caps.min_image_extent.width)
          caps.max_image_extent.width,
        height := min (max e.height caps.min_image_extent.height)
          caps.max_image_extent.height } := by
      unfold select_extent
      rw [if_neg (fun hc => hc hvar), clampU32_eq_min_max _ _ _ hw,
        clampU32_eq_min_max _ _ _ hh]
    refine ⟨hsel, ?_⟩
    intro hw1 hw2 hh1 hh2
    have hwe : min (max e.width caps.min_image_extent.width)
        caps.max_image_extent.width = e.width := by omega
    have hhe : min (max e.height caps.min_image_extent.height)
        caps.max_image_extent.height = e.height := by omega
    rw [hsel, hwe, hhe]

/-- Witness for `select_extent_spec`: a fixed surface dictates its extent, a
sentinel surface hands back an in-bounds preferred extent unchanged. -/
theorem select_extent_spec_witness :
    select_extent sampleCaps { width := 800, height := 600 } =
      some { width := 640, height := 480 } ∧
    select_extent sentinelCaps { width := 800, height := 600 } =
      some { width := 800, height := 600 } := by
  constructor
  · have h := (select_extent_spec sampleCaps { width := 800, height := 600 }).1
      (by decide)
    simpa using h
  · have h := ((select_extent_spec sentinelCaps { width := 800, height := 600 }).2
      (by decide) (by decide) (by decide)).2 (by decide) (by decide) (by decide)
      (by decide)
    exact h

/-- C10: a device accepted by `select_physical_device` has a non-empty
format list and a non-empty present-mode list, so `select_surface_format`'s
fallback access to the first supported format is in bounds and cannot
panic. -/
theorem select_physical_device_adequate (devices : List CandidateDevice)
    (d : SelectedPhysicalDevice)
    (h : select_physical_device devices = some d) :
    d.swapchain_support_details.formats ≠ [] ∧
    d.swapchain_support_details.present_modes ≠ [] ∧
    (select_surface_format d.swapchain_support_details.formats).isSome := by
  unfold select_physical_device at h
  obtain ⟨dqs, hmap, hfind⟩ := Option.bind_eq_some.mp h
  obtain ⟨dq, hdqmem, hf⟩ := List.exists_of_findSome?_eq_some hfind
  rcases dq with ⟨cd, q⟩
  unfold filter_device at hf
  obtain ⟨⟨g, p⟩, hq, hf⟩ := Option.bind_eq_some.mp hf
  obtain ⟨extOk, hext, hf⟩ := Option.bind_eq_some.mp hf
  split at hf
  · exact absurd hf (by simp)
  · obtain ⟨det, hdet, hf⟩ := Option.bind_eq_some.mp hf
    simp only [] at hf
    split at hf
    · exact absurd hf (by simp)
    · rename_i hadq
      have hd := Option.some.inj hf
      have hdet2 : d.swapchain_support_details = det := by
        rw [← hd]
      rw [not_not] at hadq
      obtain ⟨hfm, hpm⟩ := hadq
      have hfne : det.formats ≠ [] := by
        intro hnil
        rw [List.isEmpty_iff.mpr hnil] at hfm
        exact hfm rfl
      have hpne : det.present_modes ≠ [] := by
        intro hnil
        rw [List.isEmpty_iff.mpr hnil] at hpm
        exact hpm rfl
      rw [hdet2]
      exact ⟨hfne, hpne, select_surface_format_isSome_of_ne_nil det.formats hfne⟩

/-- Witness for `select_physical_device_adequate` on a one-device list. -/
theorem select_physical_device_adequate_witness :
    sampleSelected.swapchain_support_details.formats ≠ [] ∧
    sampleSelected.swapchain_support_details.present_modes ≠ [] ∧
    (select_surface_format sampleSelected.swapchain_support_details.formats).isSome :=
  select_physical_device_adequate [sampleCandidate] sampleSelected (by decide)

/-- Trace and state facts of every successful `recreate_sized_renderer`
call: the trace is one rebuild attempt beginning with the idle wait, with no
fence waits, fence resets, submissions or presents, and the call leaves the
fences and the frame index untouched. -/
theorem recreate_ok_events (size : Extent2D) (ok : Bool) (s s2 : RendererState)
    (revs : List Event)
    (h : recreate_sized_renderer size ok s = .ok (s2, revs)) :
    (∃ tail, revs = Event.idleWait :: tail) ∧
    countFenceWaits revs = 0 ∧ countFenceResets revs = 0 ∧
    countSubmits revs = 0 ∧ countPresents revs = 0 ∧
    countRebuildAttempts revs = 1 ∧
    s2.fenceSignaled = s.fenceSignaled ∧
    s2.currentFrameInFlight = s.currentFrameInFlight := by
  unfold recreate_sized_renderer at h
  rcases hse : s.sizedExtent with _ | eOld <;> rw [hse] at h <;>
    simp only [] at h <;> split at h
  all_goals try split at h
  all_goals first
    | exact Except.noConfusion h
    | (simp only [Except.ok.injEq, Prod.mk.injEq] at h
       obtain ⟨h1, h2⟩ := h
       subst h1
       subst h2
       exact ⟨⟨_, rfl⟩, rfl, rfl, rfl, rfl, rfl, rfl, rfl⟩)

/-- C3: a tick whose acquire reports out-of-date performs no fence reset,
no queue submission and no present, triggers exactly one rebuild of the
swapchain-dependent resources, and leaves every in-flight fence state
untouched -- in particular the slot's fence stays signaled. -/
theorem acquire_out_of_date_tick (s s2 : RendererState) (e : Extent2D)
    (inp : TickInput) (evs : List Event)
    (hs : s.sizedExtent = some e) (ha : inp.acquire = AcquireOutcome.outOfDate)
    (hr : render inp s = .ok (s2, evs)) :
    countFenceResets evs = 0 ∧ countSubmits evs = 0 ∧ countPresents evs = 0 ∧
    countRebuildAttempts evs = 1 ∧ s2.fenceSignaled = s.fenceSignaled := by
  unfold render at hr
  rw [hs, ha] at hr
  rcases hrec : recreate_sized_renderer inp.windowSize inp.rebuildOk s
    with rerr | ⟨s4, revs4⟩
  · rw [hrec] at hr
    exact Except.noConfusion hr
  · rw [hrec] at hr
    simp only [Except.ok.injEq, Prod.mk.injEq] at hr
    obtain ⟨h1, h2⟩ := hr
    subst h1
    subst h2
    obtain ⟨-, -, hfr, hsub, hpres, hreb, hfs, -⟩ :=
      recreate_ok_events _ _ _ _ _ hrec
    have hfr2 : countFenceResets revs4 = 0 := hfr
    have hsub2 : countSubmits revs4 = 0 := hsub
    have hpres2 : countPresents revs4 = 0 := hpres
    have hreb2 : countRebuildAttempts revs4 = 1 := hreb
    exact ⟨hfr2, hsub2, hpres2, hreb2, hfs⟩

/-- Witness for `acquire_out_of_date_tick` at a concrete out-of-date tick. -/
theorem acquire_out_of_date_tick_witness :
    countFenceResets oodTickEvents = 0 ∧ countSubmits oodTickEvents = 0 ∧
    countPresents oodTickEvents = 0 ∧ countRebuildAttempts oodTickEvents = 1 ∧
    sampleState.fenceSignaled = sampleState.fenceSignaled :=
  acquire_out_of_date_tick sampleState sampleState sampleExtent
    tickOutOfDateInput oodTickEvents rfl rfl rfl

/-- With no sized renderer the render loop is inert: every tick returns at
once with an empty trace and an unchanged state. -/
theorem run_sized_none (s : RendererState) (hs : s.sizedExtent = none) :
    ∀ inputs : List TickInput,
      run s inputs = .ok (s, inputs.map (fun _ => ([] : List Event))) := by
  intro inputs
  induction inputs with
  | nil => rfl
  | cons inp rest ih =>
    have hr : render inp s = .ok (s, []) := by
      unfold render
      rw [hs]
    unfold run
    rw [hr]
    simp only []
    rw [ih]
    rfl

/-- C5: a rebuild attempt that observes a window extent with zero width or
zero height creates no sized resources, and every subsequent render tick
performs zero fence waits, zero submissions and zero presents (each tick's
trace is empty and the state never changes), so the renderer stays idle --
no rebuild attempt with a nonzero extent can even occur from inside the
loop. -/
theorem zero_size_rebuild_idles (size : Extent2D) (ok : Bool)
    (s s2 : RendererState) (revs : List Event)
    (hz : size.width = 0 ∨ size.height = 0)
    (h : recreate_sized_renderer size ok s = .ok (s2, revs)) :
    s2.sizedExtent = none ∧ (∀ e2, Event.createSized e2 ∉ revs) ∧
    (∀ inputs : List TickInput,
      run s2 inputs = .ok (s2, inputs.map (fun _ => ([] : List Event)))) ∧
    (∀ inputs sf evss, run s2 inputs = .ok (sf, evss) →
      ∀ evs2 ∈ evss, countFenceWaits evs2 = 0 ∧
        countSubmits evs2 = 0 ∧ countPresents evs2 = 0) := by
  unfold recreate_sized_renderer at h
  simp only [] at h
  rw [if_pos hz] at h
  rcases hse : s.sizedExtent with _ | eOld <;> rw [hse] at h <;>
    simp only [Except.ok.injEq, Prod.mk.injEq] at h <;>
    obtain ⟨h1, h2⟩ := h <;> subst h1 <;> subst h2 <;>
    refine ⟨rfl, ?_, run_sized_none _ rfl, ?_⟩
  · intro e2
    simp
  · intro inputs sf evss hrun evs2 hmem
    rw [run_sized_none _ rfl inputs] at hrun
    simp only [Except.ok.injEq, Prod.mk.injEq] at hrun
    obtain ⟨h3, h4⟩ := hrun
    subst h4
    simp only [List.mem_map] at hmem
    obtain ⟨x, hx, hevs⟩ := hmem
    subst hevs
    exact ⟨rfl, rfl, rfl⟩
  · intro e2
    simp
  · intro inputs sf evss hrun evs2 hmem
    rw [run_sized_none _ rfl inputs] at hrun
    simp only [Except.ok.injEq, Prod.mk.injEq] at hrun
    obtain ⟨h3, h4⟩ := hrun
    subst h4
    simp only [List.mem_map] at hmem
    obtain ⟨x, hx, hevs⟩ := hmem
    subst hevs
    exact ⟨rfl, rfl, rfl⟩

/-- Witness for `zero_size_rebuild_idles`: a zero-width rebuild attempt on
the sample state drops into the idle state and a subsequent tick is a
no-op. -/
theorem zero_size_rebuild_idles_witness :
    idleState.sizedExtent = none ∧
    run idleState [tickOkInput] = .ok (idleState, [[]]) := by
  have h := zero_size_rebuild_idles zeroExtent true sampleState idleState
    [Event.idleWait, Event.destroySized sampleExtent] (Or.inl rfl) rfl
  exact ⟨h.1, h.2.2.1 [tickOkInput]⟩

/-- C6 counterexample: at a concrete recreation input the swapchain create
info carries no old-swapchain handle -- the field keeps the builder's null
default -- contradicting the claim that the old handle is passed to the
swapchain creation call. -/
theorem old_swapchain_not_passed_cex :
    create_swapchain_info sampleSupportDetails [0] sampleExtent =
      some sampleCreateInfo ∧ sampleCreateInfo.old_swapchain = none := by
  exact ⟨by decide, rfl⟩

/-- C6 (amended): during a nonzero-size rebuild the old sized renderer's
GPU objects are destroyed only after the replacement has been created
successfully (`createSized` strictly precedes `destroySized` in the trace),
and they are not destroyed at all when creation fails; the old swapchain
handle, however, is not passed to the swapchain creation call -- every
create info the code builds has a null `old_swapchain`. -/
theorem recreate_destroys_old_only_after_create (size : Extent2D) (ok : Bool)
    (s : RendererState) (eOld : Extent2D)
    (hnz : ¬(size.width = 0 ∨ size.height = 0))
    (hold : s.sizedExtent = some eOld) :
    (ok = true → recreate_sized_renderer size ok s =
      .ok ({ s with sizedExtent := some size, resizeNeeded := false },
        [Event.idleWait, Event.createSized size, Event.destroySized eOld])) ∧
    (ok = false → recreate_sized_renderer size ok s =
      .error [Event.idleWait, Event.createFailed size]) ∧
    (∀ details idx pe info, create_swapchain_info details idx pe = some info →
      info.old_swapchain = none) := by
  refine ⟨?_, ?_, ?_⟩
  · intro hok
    subst hok
    unfold recreate_sized_renderer
    rw [hold, if_neg hnz]
    rfl
  · intro hok
    subst hok
    unfold recreate_sized_renderer
    rw [hold, if_neg hnz]
    rfl
  · intro details idx pe info h
    unfold create_swapchain_info at h
    obtain ⟨f, hf, h⟩ := Option.bind_eq_some.mp h
    simp only [] at h
    obtain ⟨ext, hext, h⟩ := Option.bind_eq_some.mp h
    have h2 := Option.some.inj h
    rw [← h2]

/-- Witness for `recreate_destroys_old_only_after_create` at the sample
state: successful recreation destroys the old renderer last, and the
sample create info has a null old-swapchain field. -/
theorem recreate_destroys_old_only_after_create_witness :
    recreate_sized_renderer sampleExtent true sampleState =
      .ok (sampleState,
        [Event.idleWait, Event.createSized sampleExtent,
          Event.destroySized sampleExtent]) ∧
    sampleCreateInfo.old_swapchain = none := by
  have h := recreate_destroys_old_only_after_create sampleExtent true
    sampleState sampleExtent (by decide) rfl
  exact ⟨h.1 rfl, rfl⟩

/-- C4 counterexample: in the very tick whose present reports suboptimal,
the code already performs the rebuild (`recreate_sized_renderer` runs inside
that tick, visible as the rebuild attempt in the tick's own trace), rather
than only marking it pending for the next tick as the claim states. -/
theorem present_suboptimal_rebuild_cex :
    render tickSuboptInput sampleState = .ok (sampleState, suboptTickEvents) ∧
    countRebuildAttempts suboptTickEvents = 1 := ⟨rfl, rfl⟩

/-- C4 (amended): a tick whose present reports suboptimal still performs
its queue submission and its present of the current frame, and only then
performs the rebuild -- within the same tick, directly after the present,
rather than deferring it to the next tick. -/
theorem present_suboptimal_submits_then_rebuilds (s s2 : RendererState)
    (e : Extent2D) (inp : TickInput) (i : Nat) (b : Bool) (evs : List Event)
    (hs : s.sizedExtent = some e) (ha : inp.acquire = AcquireOutcome.success i b)
    (hp : inp.present = PresentOutcome.success true)
    (hr : render inp s = .ok (s2, evs)) :
    countSubmits evs = 1 ∧ countPresents evs = 1 ∧
    countRebuildAttempts evs = 1 ∧
    ∃ tail, evs = [Event.fenceWait s.currentFrameInFlight,
      Event.fenceReset s.currentFrameInFlight,
      Event.submit s.currentFrameInFlight s.currentFrameInFlight,
      Event.presentCall i, Event.idleWait] ++ tail := by
  unfold render at hr
  rw [hs, ha, hp] at hr
  simp only [] at hr
  split at hr
  · split at hr
    · exact Except.noConfusion hr
    · rename_i s4 revs4 hrec
      simp only [Except.ok.injEq, Prod.mk.injEq] at hr
      obtain ⟨h1, h2⟩ := hr
      subst h1
      subst h2
      obtain ⟨⟨tail, htail⟩, -, -, hsub, hpres, hreb, -, -⟩ :=
        recreate_ok_events _ _ _ _ _ hrec
      subst htail
      have hsub2 : countSubmits tail = 0 := hsub
      have hpres2 : countPresents tail = 0 := hpres
      have hreb2 : countRebuildAttempts tail + 1 = 1 := hreb
      refine ⟨?_, ?_, ?_, tail, rfl⟩
      · show countSubmits tail + 1 = 1
        omega
      · show countPresents tail + 1 = 1
        omega
      · show countRebuildAttempts tail + 1 = 1
        omega
  · rename_i hc
    exact absurd (Or.inl trivial) hc

/-- Witness for `present_suboptimal_submits_then_rebuilds` at a concrete
suboptimal-present tick. -/
theorem present_suboptimal_submits_then_rebuilds_witness :
    countSubmits suboptTickEvents = 1 ∧ countPresents suboptTickEvents = 1 ∧
    countRebuildAttempts suboptTickEvents = 1 ∧
    ∃ tail, suboptTickEvents = [Event.fenceWait 0, Event.fenceReset 0,
      Event.submit 0 0, Event.presentCall 0, Event.idleWait] ++ tail :=
  present_suboptimal_submits_then_rebuilds sampleState sampleState
    sampleExtent tickSuboptInput 0 false suboptTickEvents rfl rfl rfl rfl

/-- C1 (code bug): the frame-in-flight index never advances -- the advance
statement at src/src/render.rs line 235 is commented out. From the freshly
created renderer (F = 2, index 0, both fences signaled), two consecutive
fully successful ticks both wait on slot 0's fence and submit slot 0's
command buffer, and the index is still 0 afterwards, whereas the claim
requires tick T to operate on slot T mod F, i.e. the second tick to use
slot 1. -/
theorem frame_index_never_advances :
    initial_renderer sampleExtent true = .ok (sampleState,
      [Event.idleWait, Event.createSized sampleExtent]) ∧
    run sampleState [tickOkInput, tickOkInput] = .ok (sampleState,
      [okTickEvents, okTickEvents]) ∧
    slotsWaited [okTickEvents, okTickEvents] = [0, 0] ∧
    sampleState.maxFramesInFlight = 2 ∧
    sampleState.currentFrameInFlight = 0 :=
  ⟨rfl, rfl, rfl, rfl, rfl⟩

/-- C2 (code bug): a slot-0 tick whose acquire returns image index 1
submits command buffer 0 (`buffers[current_frame_in_flight]`, recorded
against framebuffer 0) while presenting image index 1 -- the submitted
buffer is not the one recorded for the acquired image index, exactly the
mismatch the source's own TODO at src/src/render.rs line 190 points out. -/
theorem submit_uses_frame_slot_not_image_index :
    render tickAcquire1Input sampleState =
      .ok (sampleState, acquire1TickEvents) ∧
    submittedBufferIndices acquire1TickEvents = [0] ∧
    presentedImageIndices acquire1TickEvents = [1] :=
  ⟨rfl, rfl, rfl⟩
